import Mathlib

/-!
Shallow embedding of a multi-stage privacy-compliance pipeline: ingestion
(watchdog), PII detection, consent check, redaction and audit.  External
collaborators (the document store holding consent records, the analytical audit
sink, the regex engine, the DLP service, the filesystem) are modelled as
explicit parameters; Python dictionaries become association lists, fallible
calls become Option / explicit outcome types, and functions that may raise are
given an explicit raised-exception outcome.
-/

namespace PrivacyGuardian

/-- Python dict lookup (dict.get): first binding for the key, none when absent. -/
def dictGet {α : Type} : List (String × α) → String → Option α
  | [], _ => none
  | p :: rest, key => if p.1 = key then some p.2 else dictGet rest key

/-- Truthiness of an optional Python string: None and the empty string are falsy. -/
def pyFalsy : Option String → Bool
  | none => true
  | some s => s == ""

/-- A per-user, per-PII-type consent record: granted flag and optional expiry. -/
structure ConsentRecord where
  granted : Bool
  valid_until : Option Int
deriving DecidableEq

/-- The hard-coded local fallback consent table (LOCAL_CONSENT_DB in the source). -/
def LOCAL_CONSENT_DB : List (String × List (String × ConsentRecord)) :=
  [("user123",
    [("EMAIL_ADDRESS", ⟨true, none⟩),
     ("PHONE_NUMBER", ⟨false, none⟩),
     ("CREDIT_CARD_NUMBER", ⟨false, none⟩),
     ("PERSON_NAME", ⟨true, none⟩),
     ("US_SSN", ⟨false, none⟩),
     ("US_DRIVER_LICENSE", ⟨false, none⟩),
     ("US_PASSPORT", ⟨false, none⟩)])]

/-- Observable state of the primary consent store for one call: the client or
the read raises (unavailable), the user has no document, or the document with
its per-type records. -/
inductive FirestoreState where
  | unavailable
  | noDoc
  | doc (data : List (String × ConsentRecord))

/-- Per-type resolution on the primary-store path: `consent_data.get(pii_type, {})`,
`consent.get('granted', False)`, then the expiry check `now > valid_until`
forcing the result to false. -/
def firestoreConsentFor (data : List (String × ConsentRecord)) (now : Int)
    (piiType : String) : Bool :=
  match dictGet data piiType with
  | none => false
  | some c =>
    match c.valid_until with
    | some vu => if now > vu then false else c.granted
    | none => c.granted

/-- Per-type resolution on the local fallback path:
`LOCAL_CONSENT_DB.get(user_id, {}).get(pii_type, {}).get('granted', False)`. -/
def localConsentFor (db : List (String × List (String × ConsentRecord)))
    (userId piiType : String) : Bool :=
  match dictGet db userId with
  | none => false
  | some udb =>
    match dictGet udb piiType with
    | none => false
    | some c => c.granted

/-- The consent record the fallback table holds for a user and PII type, if any. -/
def localConsentEntry (db : List (String × List (String × ConsentRecord)))
    (userId piiType : String) : Option ConsentRecord :=
  (dictGet db userId).bind (fun udb => dictGet udb piiType)

/-- The consent record the primary-store document holds for a PII type, when a
document is present. -/
def docEntry : FirestoreState → String → Option ConsentRecord
  | .doc data, t => dictGet data t
  | _, _ => none

/-- Result record of verify_consent_for_pii_types; absent dict keys are none. -/
structure ConsentCheckResult where
  error : Option String := none
  consent_results : Option (List (String × Bool)) := none
  status : Option String := none
deriving DecidableEq

/-- Embedding of verify_consent_for_pii_types: validate inputs, then resolve
each requested PII type against the primary store document when present,
otherwise (no document, or the store raised) against the local fallback table. -/
def verify_consent_for_pii_types (fs : FirestoreState)
    (db : List (String × List (String × ConsentRecord))) (now : Int)
    (user_id : String) (pii_findings : List String) : ConsentCheckResult :=
  if user_id = "" ∨ pii_findings = [] then
    { error := some "Missing required fields: user_id and pii_findings" }
  else
    match fs with
    | .doc data =>
      { consent_results := some (pii_findings.map (fun t => (t, firestoreConsentFor data now t))),
        status := some "verified" }
    | .noDoc =>
      { consent_results := some (pii_findings.map (fun t => (t, localConsentFor db user_id t))),
        status := some "verified" }
    | .unavailable =>
      { consent_results := some (pii_findings.map (fun t => (t, localConsentFor db user_id t))),
        status := some "verified" }

/-- Specification rule for effective consent, for comparison with the code:
effective only if granted and (valid_until unset or still in the future). -/
def effectiveConsent (c : ConsentRecord) (now : Int) : Bool :=
  c.granted &&
    (match c.valid_until with
     | none => true
     | some vu => decide (now < vu))

/-- A fallback consent table holding a granted-but-expired record, used to
exhibit that the fallback path ignores expiry. -/
def C3db : List (String × List (String × ConsentRecord)) :=
  [("u1", [("EMAIL_ADDRESS", ⟨true, some 0⟩)])]

/-- One audit event as a structured record; absent dict keys are none / empty. -/
structure AuditEntry where
  event_type : Option String := none
  timestamp : Option String := none
  user_id : Option String := none
  compliance_status : Option String := none
  pii_types_detected : List String := []
  redacted_pii_types : List String := []
deriving DecidableEq

/-- Observable backend state for one AuditLogger call: whether the BigQuery
client was configured and initialized, whether an insert into it fails
(insert_rows_json returns errors or raises), and whether an append to the
local JSONL file succeeds. -/
structure AuditEnv where
  use_bigquery : Bool
  bq_insert_errors : Bool
  local_append_ok : Bool
deriving DecidableEq

/-- Timestamp is added to the event when not already present. -/
def withTimestamp (now : String) (e : AuditEntry) : AuditEntry :=
  match e.timestamp with
  | none => { e with timestamp := some now }
  | some _ => e

/-- Embedding of AuditLogger.log_audit_event over the local durable log (the
JSONL file as a list of entries): when BigQuery is in use the event goes to
_log_to_bigquery, which returns false on insert errors; otherwise the event is
appended to the local file, _log_to_local_file returning false if the append
raises.  Returns the success flag and the new local log. -/
def log_audit_event (env : AuditEnv) (now : String) (log : List AuditEntry)
    (e : AuditEntry) : Bool × List AuditEntry :=
  let e2 := withTimestamp now e
  if env.use_bigquery then
    (if env.bq_insert_errors then false else true, log)
  else
    if env.local_append_ok then (true, log ++ [e2]) else (false, log)

/-- Summary fields of the compliance report that the claims are about. -/
structure ComplianceSummary where
  total_files_processed : Nat
  compliant_files : Nat
  non_compliant_files : Nat
  compliance_rate : ℚ
deriving DecidableEq

/-- Round-half-to-even on an integer boundary, as Python's round does. -/
def roundHalfEven (q : ℚ) : Int :=
  let f := Int.floor q
  let r := q - (f : ℚ)
  if r < 1/2 then f
  else if 1/2 < r then f + 1
  else if f % 2 = 0 then f else f + 1

/-- Python round(x, 2) on an exact rational. -/
def pythonRound2 (q : ℚ) : ℚ := ((roundHalfEven (q * 100) : Int) : ℚ) / 100

/-- The user filter of generate_compliance_report: applied only when a user_id
was supplied and truthy; keeps entries whose user_id field equals it. -/
def filteredEntries (log : List AuditEntry) (user_filter : Option String) :
    List AuditEntry :=
  match user_filter with
  | none => log
  | some u => if u = "" then log else log.filter (fun e => e.user_id == some u)

/-- Embedding of the statistics part of generate_compliance_report over the
entries parsed from the durable log: total and compliant counts over the
filtered entries and compliance_rate = round(compliant / total * 100, 2) when
total > 0, else 0. -/
def generate_compliance_report (log : List AuditEntry)
    (user_filter : Option String) : ComplianceSummary :=
  let entries := filteredEntries log user_filter
  let total := entries.length
  let compliant :=
    (entries.filter (fun e => e.compliance_status == some "compliant")).length
  { total_files_processed := total,
    compliant_files := compliant,
    non_compliant_files := total - compliant,
    compliance_rate :=
      pythonRound2 (if 0 < total then (compliant : ℚ) / (total : ℚ) * 100 else 0) }

/-- Outcome of a Python call that may raise: a returned value or an exception. -/
inductive PyResult (α : Type) where
  | ok (val : α)
  | raised (exn : String)
deriving DecidableEq

/-- Result record of detect_data. -/
structure DetectResult where
  pii_findings : List String
  status : String
deriving DecidableEq

/-- Embedding of detect_data: reads the file at event["file_path"] with no
exception handler, so open() raising (None path, nonexistent file) escapes to
the caller; otherwise the external analyzer's entity types are deduplicated. -/
def detect_data (fsRead : String → Option String) (analyze : String → List String)
    (file_path : Option String) : PyResult DetectResult :=
  match file_path with
  | none => .raised "TypeError"
  | some p =>
    match fsRead p with
    | none => .raised "FileNotFoundError"
    | some content =>
      .ok { pii_findings := (analyze content).eraseDups, status := "scanned" }

/-- Event payload emitted by the ingestion stage. -/
structure IngestPayload where
  event_type : String
  file_path : String
  user_id : String
  timestamp : String
deriving DecidableEq

/-- Final path component, as os.path.basename on POSIX paths. -/
def basename (s : String) : String := (s.splitOn "/").getLastD s

/-- Embedding of upload_file: shutil.copy2 has no exception handler, so a
nonexistent source path raises to the caller; on success the payload points at
the copy in watched_dir and carries the given user_id. -/
def upload_file (fsRead : String → Option String) (now source_path user_id : String) :
    PyResult IngestPayload :=
  match fsRead source_path with
  | none => .raised "FileNotFoundError"
  | some _ =>
    .ok { event_type := "new_file_ingested",
          file_path := "watched_dir/" ++ basename source_path,
          user_id := user_id,
          timestamp := now }

/-- A filesystem event held in the watchdog handler's single pending slot. -/
structure FsEvent where
  event_type : String
  file_path : String
  timestamp : String
deriving DecidableEq

/-- Observable state for one monitor_watched_directory call: whether
watched_dir exists, the handler's pending-event slot, and the directory
listing with creation times. -/
structure WatchState where
  dirExists : Bool
  latest_event : Option FsEvent
  files : List (String × Int)

/-- Outcome of monitor_watched_directory: error record, info record, or payload. -/
inductive MonitorOutcome where
  | err (msg : String)
  | info (msg : String)
  | payload (p : IngestPayload)
deriving DecidableEq

/-- Python max over (filename, ctime) pairs keyed by ctime: first maximal wins. -/
def maxByCtime : (String × Int) → List (String × Int) → (String × Int)
  | acc, [] => acc
  | acc, x :: rest => maxByCtime (if x.2 > acc.2 then x else acc) rest

/-- Embedding of monitor_watched_directory: error if the directory is missing;
otherwise consume the pending event slot (clearing it) into a payload, else
scan the directory for the most recently created file, else report no files.
Both payload branches hard-code user_id "user123". -/
def monitor_watched_directory (st : WatchState) (now : String) :
    MonitorOutcome × WatchState :=
  if st.dirExists = false then (.err "Watched directory does not exist", st)
  else
    match st.latest_event with
    | some e =>
      (.payload { event_type := "new_file_ingested", file_path := e.file_path,
                  user_id := "user123", timestamp := e.timestamp },
       { st with latest_event := none })
    | none =>
      match st.files with
      | [] => (.info "No files found in watched directory", st)
      | f :: rest =>
        let latest := maxByCtime f rest
        (.payload { event_type := "new_file_ingested",
                    file_path := "watched_dir/" ++ latest.1,
                    user_id := "user123", timestamp := now },
         st)

/-- The masking token used by the fallback masker: the block character repeated
ten times, regardless of what was matched. -/
def maskToken : String := String.mk (List.replicate 10 '█')

/-- Semantics of re.sub given the leftmost non-overlapping decomposition of the
content produced by the regex engine: parts is the list of (unmatched segment,
matched text) pairs in order and tail the unmatched remainder, so the content
is seg0 ++ m0 ++ seg1 ++ m1 ++ ... ++ tail; every matched text is replaced by
the replacement string. -/
def reSub (parts : List (String × String)) (tail repl : String) : String :=
  match parts with
  | [] => tail
  | (seg, _) :: rest => seg ++ repl ++ reSub rest tail repl

/-- The fallback regex patterns table of simple_redact_content: only these five
PII types have a pattern. -/
def patterns : List (String × String) :=
  [("EMAIL_ADDRESS", "\\b[A-Za-z0-9._%+-]+@[A-Za-z0-9.-]+\\.[A-Z|a-z]\x7b2,\x7d\\b"),
   ("PHONE_NUMBER", "\\+?1?\\s*\\(?[0-9]\x7b3\x7d\\)?[\\s.-]?[0-9]\x7b3\x7d[\\s.-]?[0-9]\x7b4\x7d"),
   ("CREDIT_CARD_NUMBER", "\\b\\d\x7b4\x7d[- ]?\\d\x7b4\x7d[- ]?\\d\x7b4\x7d[- ]?\\d\x7b4\x7d\\b"),
   ("US_SSN", "\\b\\d\x7b3\x7d-\\d\x7b2\x7d-\\d\x7b4\x7d\\b"),
   ("PERSON_NAME", "\\b[A-Z][a-z]+ [A-Z][a-z]+\\b")]

/-- Embedding of simple_redact_content: fold over the requested PII types; a
type with a known pattern rewrites the accumulated content through re.sub with
the ten-character mask (the matcher being the external regex engine, mapping a
pattern and a content to its match decomposition); a type with no pattern
leaves the content untouched. -/
def simple_redact_content
    (matcher : String → String → List (String × String) × String)
    (content : String) (pii_types : List String) : String :=
  pii_types.foldl
    (fun acc t =>
      match dictGet patterns t with
      | some pat =>
        let pr := matcher pat acc
        reSub pr.1 pr.2 maskToken
      | none => acc)
    content

/-- Index of the last occurrence of a character in a list, if any. -/
def lastIdxOf (c : Char) : List Char → Option Nat
  | [] => none
  | x :: rest =>
    match lastIdxOf c rest with
    | some i => some (i + 1)
    | none => if x = c then some 0 else none

/-- Splitting a path into root and extension, as os.path.splitext: the
extension starts at the last dot lying inside the final path component,
provided some earlier character of that component is not a dot. -/
def splitext (s : String) : String × String :=
  let cs := s.data
  let sepEnd := match lastIdxOf '/' cs with | some i => i + 1 | none => 0
  match lastIdxOf '.' cs with
  | some d =>
    if sepEnd ≤ d ∧ ((cs.drop sepEnd).take (d - sepEnd)).any (fun c => c ≠ '.') then
      (String.mk (cs.take d), String.mk (cs.drop d))
    else (s, "")
  | none => (s, "")

/-- Input event of redact_sensitive_data; absent dict keys are none / empty. -/
structure RedactEvent where
  file_path : Option String := none
  file_contents : Option String := none
  pii_findings : List String := []
  consent_results : List (String × Bool) := []
deriving DecidableEq

/-- Result record of redact_sensitive_data; absent dict keys are none. -/
structure RedactResult where
  error : Option String := none
  status : Option String := none
  redacted_file_path : Option String := none
  redacted_pii_types : Option (List String) := none
  message : Option String := none
deriving DecidableEq

/-- Observable environment for one redact_sensitive_data call: file existence,
file reading (none when open or read raises), the DLP service when configured
and reachable, whether the output write succeeds, and the regex engine used by
the fallback masker. -/
structure RedactEnv where
  pathExists : String → Bool
  readFile : String → Option String
  dlp : Option (String → List String → String)
  writeOk : Bool
  matcher : String → String → List (String × String) × String

/-- Embedding of redact_sensitive_data.  Validation: falsy file_path yields an
error record; falsy contents with no file on disk yields an error record (both
without a status field, as in the source).  A raising read or write is caught
by the outer handler, which returns the exception message with status error.
The redact set is the findings lacking consent; when empty the original path
is returned with status success and nothing is written.  Otherwise the content
is redacted by DLP or, failing that, the fallback masker, and written to the
derived _redacted path.  The second component lists the files written. -/
def redact_sensitive_data (env : RedactEnv) (event : RedactEvent) :
    RedactResult × List (String × String) :=
  if pyFalsy event.file_path then
    ({ error := some "Missing required field: file_path" }, [])
  else
    let p := event.file_path.getD ""
    if pyFalsy event.file_contents && !(env.pathExists p) then
      ({ error := some "File not found and no contents provided" }, [])
    else
      match (if pyFalsy event.file_contents then env.readFile p else event.file_contents) with
      | none =>
        ({ error := some "exception: file read failed", status := some "error" }, [])
      | some contents =>
        let pii_to_redact :=
          event.pii_findings.filter (fun t => !((dictGet event.consent_results t).getD false))
        if pii_to_redact = [] then
          ({ redacted_file_path := event.file_path,
             redacted_pii_types := some [],
             status := some "success",
             message := some "No PII to redact (all have consent)" }, [])
        else
          let redacted_content :=
            match env.dlp with
            | some dlpF => dlpF contents pii_to_redact
            | none => simple_redact_content env.matcher contents pii_to_redact
          let redacted_path := (splitext p).1 ++ "_redacted" ++ (splitext p).2
          if env.writeOk then
            ({ redacted_file_path := some redacted_path,
               redacted_pii_types := some pii_to_redact,
               status := some "success" }, [(redacted_path, redacted_content)])
          else
            ({ error := some "exception: file write failed", status := some "error" }, [])

/-- A concrete environment whose backends are all absent, for concrete runs. -/
def envTrivial : RedactEnv :=
  { pathExists := fun _ => false,
    readFile := fun _ => none,
    dlp := none,
    writeOk := true,
    matcher := fun _ c => ([], c) }

/-- A concrete regex-engine behavior reporting one SSN-shaped match, for
concrete runs of the fallback masker. -/
def sampleMatcher : String → String → List (String × String) × String :=
  fun _ c => ([("ssn: ", "123-45-6789")], " end " ++ c)

/-! Helper lemmas. -/

/-- Looking a key up in the association list built by mapping a function over a
key list yields the function's value, for any key of the list. -/
theorem dictGet_map_self {β : Type} (f : String → β) {l : List String} {t : String}
    (h : t ∈ l) : dictGet (l.map (fun s => (s, f s))) t = some (f t) := by
  induction l with
  | nil => cases h
  | cons s rest ih =>
    by_cases hs : s = t
    · subst hs; simp [dictGet]
    · rcases List.mem_cons.mp h with h1 | h2
      · exact absurd h1.symm hs
      · simp only [List.map_cons, dictGet, if_neg hs]
        exact ih h2

/-- A value delivered by dictGet occurs among the list's values. -/
theorem dictGet_mem {α : Type} {d : List (String × α)} {k : String} {v : α}
    (h : dictGet d k = some v) : v ∈ d.map Prod.snd := by
  induction d with
  | nil => simp [dictGet] at h
  | cons p rest ih =>
    by_cases hk : p.1 = k
    · simp only [dictGet, if_pos hk, Option.some.injEq] at h
      subst h; simp
    · simp only [dictGet, if_neg hk] at h
      simp [ih h]

/-- When the fallback table has no record for the user and type, the fallback
resolution is false. -/
theorem localConsentFor_of_no_entry
    {db : List (String × List (String × ConsentRecord))} {u t : String}
    (h : localConsentEntry db u t = none) : localConsentFor db u t = false := by
  unfold localConsentEntry at h
  unfold localConsentFor
  cases hdb : dictGet db u with
  | none => rfl
  | some udb =>
    rw [hdb] at h
    simp only [Option.some_bind] at h
    simp [h]

/-- When the fallback table has a record for the user and type, the fallback
resolution is exactly its granted flag. -/
theorem localConsentFor_of_entry
    {db : List (String × List (String × ConsentRecord))} {u t : String}
    {r : ConsentRecord} (h : localConsentEntry db u t = some r) :
    localConsentFor db u t = r.granted := by
  unfold localConsentEntry at h
  unfold localConsentFor
  cases hdb : dictGet db u with
  | none => rw [hdb] at h; simp at h
  | some udb =>
    rw [hdb] at h
    simp only [Option.some_bind] at h
    simp [h]

/-- Every outcome of verify_consent_for_pii_types is a structured record
carrying either an error field or the verified status. -/
theorem verify_result_shape (fs : FirestoreState)
    (db : List (String × List (String × ConsentRecord))) (now : Int)
    (user_id : String) (pii_findings : List String) :
    (verify_consent_for_pii_types fs db now user_id pii_findings).error ≠ none ∨
    (verify_consent_for_pii_types fs db now user_id pii_findings).status
      = some "verified" := by
  unfold verify_consent_for_pii_types
  by_cases h : user_id = "" ∨ pii_findings = []
  · simp [h]
  · cases fs <;> simp [h]

/-- Every outcome of redact_sensitive_data is a structured record carrying
either an error field or the success status. -/
theorem redact_result_shape (env : RedactEnv) (event : RedactEvent) :
    (redact_sensitive_data env event).1.error ≠ none ∨
    (redact_sensitive_data env event).1.status = some "success" := by
  unfold redact_sensitive_data
  by_cases h1 : pyFalsy event.file_path = true
  · simp [h1]
  · rw [Bool.not_eq_true] at h1
    simp only [h1, Bool.false_eq_true, if_false]
    by_cases h2 : (pyFalsy event.file_contents
        && !(env.pathExists (event.file_path.getD ""))) = true
    · simp [h2]
    · rw [Bool.not_eq_true] at h2
      simp only [h2, Bool.false_eq_true, if_false]
      cases hread : (if pyFalsy event.file_contents
          then env.readFile (event.file_path.getD "")
          else event.file_contents) with
      | none => simp [hread]
      | some contents =>
        simp only [hread]
        by_cases h4 : event.pii_findings.filter
            (fun t => !((dictGet event.consent_results t).getD false)) = []
        · simp [h4]
        · simp only [h4, if_false]
          by_cases h5 : env.writeOk = true
          · simp [h4, h5]
          · rw [Bool.not_eq_true] at h5
            simp [h4, h5]

/-- When every requested PII type has consent recorded true, the redact set
computed by redact_sensitive_data is empty. -/
theorem filter_no_redact_nil {cr : List (String × Bool)} {l : List String}
    (h : ∀ t ∈ l, dictGet cr t = some true) :
    l.filter (fun t => !((dictGet cr t).getD false)) = [] := by
  induction l with
  | nil => rfl
  | cons a rest ih =>
    have ha := h a (List.mem_cons_self a rest)
    simp only [List.filter_cons, ha, Option.getD_some, Bool.not_true,
      Bool.false_eq_true, if_false]
    exact ih (fun t htm => h t (List.mem_cons_of_mem a htm))

/-- The fallback masker leaves the content untouched when none of the
requested types has a known pattern. -/
theorem simple_redact_unknown
    {matcher : String → String → List (String × String) × String}
    {content : String} {ts : List String}
    (h : ∀ t ∈ ts, dictGet patterns t = none) :
    simple_redact_content matcher content ts = content := by
  induction ts with
  | nil => rfl
  | cons a rest ih =>
    have ha := h a (List.mem_cons_self a rest)
    simp only [simple_redact_content, List.foldl_cons, ha]
    exact ih (fun t htm => h t (List.mem_cons_of_mem a htm))

/-- The output of re.sub is determined by the unmatched segments alone: the
matched texts never reach the output. -/
theorem reSub_matches_irrelevant (repl tail : String) :
    ∀ parts pb : List (String × String),
      parts.map Prod.fst = pb.map Prod.fst →
      reSub parts tail repl = reSub pb tail repl := by
  intro parts
  induction parts with
  | nil =>
    intro pb h
    cases pb with
    | nil => rfl
    | cons b rest2 => simp at h
  | cons a rest ih =>
    intro pb h
    cases pb with
    | nil => simp at h
    | cons b rest2 =>
      simp only [List.map_cons, List.cons.injEq] at h
      obtain ⟨h1, h2⟩ := h
      obtain ⟨a1, a2⟩ := a
      obtain ⟨b1, b2⟩ := b
      simp only at h1
      subst h1
      simp [reSub, ih rest2 h2]

/-- Length of a re.sub output: segment lengths plus one replacement length per
match plus the tail — independent of how long each matched text was. -/
theorem reSub_length (parts : List (String × String)) (tail repl : String) :
    (reSub parts tail repl).length =
      (parts.map (fun pr => pr.1.length)).sum + repl.length * parts.length
        + tail.length := by
  induction parts with
  | nil => simp [reSub]
  | cons a rest ih =>
    obtain ⟨a1, a2⟩ := a
    simp only [reSub, String.length_append, ih, List.map_cons, List.sum_cons,
      List.length_cons]
    ring

/-! Claim theorems. -/

/-- C1: for every consent check with non-empty user_id and non-empty
pii_findings, a PII type in pii_findings with no consent entry in the primary
store document (when present) nor in the local fallback table resolves to
false in consent_results. -/
theorem C1_consent_fail_closed (fs : FirestoreState)
    (db : List (String × List (String × ConsentRecord))) (now : Int)
    (user_id t : String) (pii_findings : List String)
    (hu : user_id ≠ "") (hp : pii_findings ≠ []) (ht : t ∈ pii_findings)
    (hdoc : docEntry fs t = none)
    (hloc : localConsentEntry db user_id t = none) :
    dictGet ((verify_consent_for_pii_types fs db now user_id pii_findings).consent_results.getD []) t
      = some false := by
  have hcond : ¬ (user_id = "" ∨ pii_findings = []) := by
    rintro (h | h)
    · exact hu h
    · exact hp h
  cases fs with
  | doc data =>
    simp only [verify_consent_for_pii_types, if_neg hcond, Option.getD_some]
    rw [dictGet_map_self _ ht]
    simp only [docEntry] at hdoc
    simp [firestoreConsentFor, hdoc]
  | noDoc =>
    simp only [verify_consent_for_pii_types, if_neg hcond, Option.getD_some]
    rw [dictGet_map_self _ ht, localConsentFor_of_no_entry hloc]
  | unavailable =>
    simp only [verify_consent_for_pii_types, if_neg hcond, Option.getD_some]
    rw [dictGet_map_self _ ht, localConsentFor_of_no_entry hloc]

/-- C1 witness: with the store unreachable and the shipped fallback table, the
user user123 has no entry for IP_ADDRESS, so it resolves to false. -/
theorem C1_witness :
    dictGet ((verify_consent_for_pii_types .unavailable LOCAL_CONSENT_DB 0 "user123"
        ["IP_ADDRESS"]).consent_results.getD []) "IP_ADDRESS" = some false :=
  C1_consent_fail_closed .unavailable LOCAL_CONSENT_DB 0 "user123" "IP_ADDRESS"
    ["IP_ADDRESS"] (by decide) (by decide) (by decide) (by decide) (by decide)

/-- C3 counterexample: with the primary store unreachable, a fallback-table
record with granted true and valid_until 0, consulted at now = 100 (so long
expired), resolves to true in consent_results, while the spec's effective-
consent rule evaluates it to false. -/
theorem C3_cex :
    localConsentEntry C3db "u1" "EMAIL_ADDRESS" = some ⟨true, some 0⟩ ∧
    dictGet ((verify_consent_for_pii_types .unavailable C3db 100 "u1"
        ["EMAIL_ADDRESS"]).consent_results.getD []) "EMAIL_ADDRESS" = some true ∧
    effectiveConsent ⟨true, some 0⟩ 100 = false := by
  refine ⟨by decide, ?_, by decide⟩
  decide

/-- C3 (amended): a record read from the primary store document is evaluated
with the expiry check (granted, forced to false when now is past valid_until),
but a record consulted from the local fallback table resolves to its granted
flag alone, its valid_until being ignored; in the shipped fallback table every
record has valid_until unset, so there the two rules coincide. -/
theorem C3_amended (db : List (String × List (String × ConsentRecord)))
    (now : Int) (user_id t : String) (pii_findings : List String)
    (r : ConsentRecord) (hu : user_id ≠ "") (ht : t ∈ pii_findings) :
    (∀ data : List (String × ConsentRecord), dictGet data t = some r →
      dictGet ((verify_consent_for_pii_types (.doc data) db now user_id
          pii_findings).consent_results.getD []) t
        = some (r.granted && !(r.valid_until.elim false (fun vu => decide (now > vu))))) ∧
    (localConsentEntry db user_id t = some r →
      dictGet ((verify_consent_for_pii_types .unavailable db now user_id
          pii_findings).consent_results.getD []) t = some r.granted) ∧
    (∀ u2 t2 : String, ∀ r2 : ConsentRecord,
      localConsentEntry LOCAL_CONSENT_DB u2 t2 = some r2 → r2.valid_until = none) := by
  have hcond : ¬ (user_id = "" ∨ pii_findings = []) := by
    rintro (h | h)
    · exact hu h
    · exact (List.ne_nil_of_mem ht) h
  refine ⟨?_, ?_, ?_⟩
  · intro data hr
    simp only [verify_consent_for_pii_types, if_neg hcond, Option.getD_some]
    rw [dictGet_map_self _ ht]
    simp only [firestoreConsentFor, hr]
    cases hv : r.valid_until with
    | none => simp
    | some vu =>
      by_cases hnv : now > vu
      · simp [hnv]
      · simp [hnv]
  · intro hloc
    simp only [verify_consent_for_pii_types, if_neg hcond, Option.getD_some]
    rw [dictGet_map_self _ ht, localConsentFor_of_entry hloc]
  · intro u2 t2 r2 h
    unfold localConsentEntry at h
    cases hdb : dictGet LOCAL_CONSENT_DB u2 with
    | none => rw [hdb] at h; simp at h
    | some udb =>
      rw [hdb] at h
      simp only [Option.some_bind] at h
      have hudb := dictGet_mem hdb
      simp only [LOCAL_CONSENT_DB, List.map_cons, List.map_nil,
        List.mem_singleton] at hudb
      subst hudb
      have hr2 := dictGet_mem h
      fin_cases hr2 <;> rfl

/-- C3 witness: on the shipped fallback table, with the store unreachable, the
granted unexpired record for user123 and PERSON_NAME resolves to true. -/
theorem C3_witness :
    dictGet ((verify_consent_for_pii_types .unavailable LOCAL_CONSENT_DB 5 "user123"
        ["PERSON_NAME"]).consent_results.getD []) "PERSON_NAME" = some true :=
  (C3_amended LOCAL_CONSENT_DB 5 "user123" "PERSON_NAME" ["PERSON_NAME"]
    ⟨true, none⟩ (by decide) (by decide)).2.1 (by decide)

/-- C2 counterexample: with BigQuery configured and the insert failing, and a
local append that would succeed, the call returns false and the local durable
log stays empty — the event is not appended to the local log. -/
theorem C2_cex :
    (log_audit_event ⟨true, true, true⟩ "t0" []
        { event_type := some "file_processing_completed" }).1 = false ∧
    (log_audit_event ⟨true, true, true⟩ "t0" []
        { event_type := some "file_processing_completed" }).2 = [] := by
  exact ⟨rfl, rfl⟩

/-- C2 (amended): when the primary analytical sink is configured but the insert
into it fails, the call reports the failure explicitly by returning false and
leaves the local durable log unchanged — the event is not appended locally;
the local fallback is engaged only when the primary sink is not configured or
its client failed to initialize, and there the append either succeeds
(returning true) or the call returns false. -/
theorem C2_amended (env : AuditEnv) (now : String) (log : List AuditEntry)
    (e : AuditEntry) :
    (env.use_bigquery = true → env.bq_insert_errors = true →
      log_audit_event env now log e = (false, log)) ∧
    (env.use_bigquery = false → env.local_append_ok = true →
      log_audit_event env now log e = (true, log ++ [withTimestamp now e])) ∧
    (env.use_bigquery = false → env.local_append_ok = false →
      log_audit_event env now log e = (false, log)) := by
  rcases env with ⟨ub, be, la⟩
  cases ub <;> cases be <;> cases la <;>
    simp [log_audit_event]

/-- C2 witness: concrete run of the configured-primary insert-failure case. -/
theorem C2_witness :
    log_audit_event ⟨true, true, false⟩ "t1" []
        { event_type := some "file_processing_completed" } = (false, []) :=
  (C2_amended ⟨true, true, false⟩ "t1" []
    { event_type := some "file_processing_completed" }).1 rfl rfl

/-- C9: when the durable audit log yields zero entries after the optional user
filter (file absent or empty, or everything filtered out), the generated
report's compliance_rate is 0 — no division error, no NaN. -/
theorem C9_zero_entries_rate (log : List AuditEntry) (user_filter : Option String)
    (h : filteredEntries log user_filter = []) :
    (generate_compliance_report log user_filter).compliance_rate = 0 := by
  simp only [generate_compliance_report, h, List.filter_nil, List.length_nil,
    lt_self_iff_false, if_false, pythonRound2, roundHalfEven]
  norm_num

/-- C9 witness: the empty log with no filter yields compliance_rate 0. -/
theorem C9_witness : (generate_compliance_report [] none).compliance_rate = 0 :=
  C9_zero_entries_rate [] none rfl

/-- C10: every payload produced by monitor_watched_directory — whether from the
pending-event slot or from the directory-scan fallback — carries the
hard-coded user_id user123. -/
theorem C10_monitor_hardcoded_user (st : WatchState) (now : String)
    (p : IngestPayload) (h : (monitor_watched_directory st now).1 = .payload p) :
    p.user_id = "user123" := by
  unfold monitor_watched_directory at h
  rcases st with ⟨de, le, files⟩
  cases de
  · simp at h
  · cases le with
    | some e =>
      simp only [Bool.true_eq_false, if_false, MonitorOutcome.payload.injEq] at h
      rw [← h]
    | none =>
      cases files with
      | nil => simp at h
      | cons f rest =>
        simp only [Bool.true_eq_false, if_false, MonitorOutcome.payload.injEq] at h
        rw [← h]

/-- C10 witness: consuming a concrete pending event yields a payload whose
user_id is user123. -/
theorem C10_witness :
    ({ event_type := "new_file_ingested", file_path := "watched_dir/a.txt",
       user_id := "user123", timestamp := "t1" } : IngestPayload).user_id
      = "user123" :=
  C10_monitor_hardcoded_user
    { dirExists := true,
      latest_event := some { event_type := "file_created",
                             file_path := "watched_dir/a.txt", timestamp := "t1" },
      files := [] }
    "now"
    { event_type := "new_file_ingested", file_path := "watched_dir/a.txt",
      user_id := "user123", timestamp := "t1" }
    rfl

/-- C4 counterexample: the detection stage invoked on a nonexistent file path
lets FileNotFoundError escape to the caller instead of returning a result
record, and so does upload on a nonexistent source path. -/
theorem C4_cex :
    detect_data (fun _ => none) (fun _ => []) (some "missing.txt")
      = .raised "FileNotFoundError" ∧
    upload_file (fun _ => none) "2026-10-12T00:00:00" "missing.txt" "user123"
      = .raised "FileNotFoundError" :=
  ⟨rfl, rfl⟩

/-- C4 (amended): the consent-check and redaction stage functions wrap their
bodies in a handler and return for every input a result record carrying
either an error field or a success status, but detect_data and upload_file
have no handler: a nonexistent file path to detection and a nonexistent
source path to upload each raise FileNotFoundError to the caller. -/
theorem C4_amended :
    (∀ (env : RedactEnv) (event : RedactEvent),
      (redact_sensitive_data env event).1.error ≠ none ∨
      (redact_sensitive_data env event).1.status = some "success") ∧
    (∀ (fs : FirestoreState) (db : List (String × List (String × ConsentRecord)))
        (now : Int) (user_id : String) (pii_findings : List String),
      (verify_consent_for_pii_types fs db now user_id pii_findings).error ≠ none ∨
      (verify_consent_for_pii_types fs db now user_id pii_findings).status
        = some "verified") ∧
    detect_data (fun _ => none) (fun _ => []) (some "nonexistent.txt")
      = .raised "FileNotFoundError" ∧
    upload_file (fun _ => none) "t0" "nonexistent.txt" "user123"
      = .raised "FileNotFoundError" :=
  ⟨redact_result_shape, verify_result_shape, rfl, rfl⟩

/-- C5: a redaction call whose requested types all map to true in
consent_results (empty redact set) short-circuits: it returns the original
path as redacted_file_path, an empty redacted_pii_types list and status
success, and writes no file. -/
theorem C5_empty_redact_set (env : RedactEnv) (event : RedactEvent) (p : String)
    (hp : event.file_path = some p) (hpne : p ≠ "")
    (hcontent : pyFalsy event.file_contents = false ∨
      (env.pathExists p = true ∧ env.readFile p ≠ none))
    (hall : ∀ t ∈ event.pii_findings, dictGet event.consent_results t = some true) :
    redact_sensitive_data env event =
      ({ redacted_file_path := some p, redacted_pii_types := some [],
         status := some "success",
         message := some "No PII to redact (all have consent)" }, []) := by
  have hfil := filter_no_redact_nil hall
  have h1 : pyFalsy (some p) = false := by
    simp only [pyFalsy]
    exact beq_eq_false_iff_ne.mpr hpne
  unfold redact_sensitive_data
  rw [hp]
  simp only [h1, Bool.false_eq_true, if_false, Option.getD_some]
  by_cases hpf : pyFalsy event.file_contents = true
  · rcases hcontent with hc | ⟨hex, hread⟩
    · rw [hpf] at hc; cases hc
    · cases hr : env.readFile p with
      | none => exact absurd hr hread
      | some c => simp [hpf, hex, hr, hfil]
  · rw [Bool.not_eq_true] at hpf
    cases hfc : event.file_contents with
    | none => rw [hfc] at hpf; cases hpf
    | some c =>
      rw [hfc] at hpf
      simp [hpf, hfc, hfil]

/-- C5 witness: a concrete call with content supplied and consent granted for
the single finding returns the original path, empty list and success, writing
nothing. -/
theorem C5_witness :
    redact_sensitive_data envTrivial
        { file_path := some "f.txt", file_contents := some "mail me",
          pii_findings := ["EMAIL_ADDRESS"],
          consent_results := [("EMAIL_ADDRESS", true)] } =
      ({ redacted_file_path := some "f.txt", redacted_pii_types := some [],
         status := some "success",
         message := some "No PII to redact (all have consent)" }, []) :=
  C5_empty_redact_set envTrivial
    { file_path := some "f.txt", file_contents := some "mail me",
      pii_findings := ["EMAIL_ADDRESS"],
      consent_results := [("EMAIL_ADDRESS", true)] }
    "f.txt" rfl (by decide) (Or.inl (by decide)) (by decide)

/-- C7 counterexample: a redaction call lacking file_path returns a record
with the error field set but no status field at all, while the claim requires
status error to be present on that failure. -/
theorem C7_cex :
    (redact_sensitive_data envTrivial { file_path := none }).1.error
      = some "Missing required field: file_path" ∧
    (redact_sensitive_data envTrivial { file_path := none }).1.status = none :=
  ⟨rfl, rfl⟩

/-- C7 (amended): on missing file_path, and on a missing file with no content
supplied, the call returns a record carrying an error field but no status
field; status error (always accompanied by an error field) arises only from
the exception handler, for example when the read or the write raises. -/
theorem C7_amended (env : RedactEnv) (event : RedactEvent) :
    (pyFalsy event.file_path = true →
      (redact_sensitive_data env event).1
        = { error := some "Missing required field: file_path" }) ∧
    (pyFalsy event.file_path = false → pyFalsy event.file_contents = true →
      env.pathExists (event.file_path.getD "") = false →
      (redact_sensitive_data env event).1
        = { error := some "File not found and no contents provided" }) ∧
    ((redact_sensitive_data env event).1.status = some "error" →
      (redact_sensitive_data env event).1.error ≠ none) := by
  refine ⟨?_, ?_, ?_⟩
  · intro h1
    simp [redact_sensitive_data, h1]
  · intro h1 h2 h3
    simp [redact_sensitive_data, h1, h2, h3]
  · intro hs
    rcases redact_result_shape env event with he | hsucc
    · exact he
    · rw [hsucc] at hs
      simp at hs

/-- C7 witness: concrete run of the missing-file_path case. -/
theorem C7_witness :
    (redact_sensitive_data envTrivial { file_path := none }).1
      = { error := some "Missing required field: file_path" } :=
  (C7_amended envTrivial { file_path := none }).1 rfl

/-- C6: when the fallback masker handles a redact set consisting of PII types
with no defined pattern, the written content is the original, unredacted
content, yet redacted_pii_types reports the full requested redact set. -/
theorem C6_unknown_types_reported
    (matcher : String → String → List (String × String) × String)
    (pathExistsF : String → Bool) (readFileF : String → Option String)
    (content p : String) (ts : List String)
    (hpne : p ≠ "") (hcne : content ≠ "") (hts : ts ≠ [])
    (hunknown : ∀ t ∈ ts, dictGet patterns t = none) :
    redact_sensitive_data
        { pathExists := pathExistsF, readFile := readFileF, dlp := none,
          writeOk := true, matcher := matcher }
        { file_path := some p, file_contents := some content,
          pii_findings := ts, consent_results := [] } =
      ({ redacted_file_path := some ((splitext p).1 ++ "_redacted" ++ (splitext p).2),
         redacted_pii_types := some ts,
         status := some "success" },
       [((splitext p).1 ++ "_redacted" ++ (splitext p).2, content)]) := by
  have h1 : pyFalsy (some p) = false := by
    simp only [pyFalsy]
    exact beq_eq_false_iff_ne.mpr hpne
  have hc1 : pyFalsy (some content) = false := by
    simp only [pyFalsy]
    exact beq_eq_false_iff_ne.mpr hcne
  have hfilter :
      ts.filter (fun t => !((dictGet ([] : List (String × Bool)) t).getD false)) = ts :=
    List.filter_eq_self.mpr (fun a _ => rfl)
  have hmask := @simple_redact_unknown matcher content ts hunknown
  simp [redact_sensitive_data, h1, hc1, hfilter, hts, hmask]

/-- C6 witness: a concrete fallback run over a driver-license-only redact set
writes the content verbatim while reporting US_DRIVER_LICENSE as redacted. -/
theorem C6_witness :
    redact_sensitive_data
        { pathExists := fun _ => false, readFile := fun _ => none, dlp := none,
          writeOk := true, matcher := sampleMatcher }
        { file_path := some "d.txt", file_contents := some "license XYZ",
          pii_findings := ["US_DRIVER_LICENSE"], consent_results := [] } =
      ({ redacted_file_path := some "d_redacted.txt",
         redacted_pii_types := some ["US_DRIVER_LICENSE"],
         status := some "success" },
       [("d_redacted.txt", "license XYZ")]) :=
  C6_unknown_types_reported sampleMatcher (fun _ => false) (fun _ => none)
    "license XYZ" "d.txt" ["US_DRIVER_LICENSE"]
    (by decide) (by decide) (by decide) (by decide)

/-- C8: for a PII type with a known pattern the fallback masker rewrites the
content through re.sub with the ten-character mask token; the output is
determined by the unmatched segments alone, its length adds exactly ten
characters per match whatever was matched, and the mask is ten characters. -/
theorem C8_fixed_width_mask
    (matcher : String → String → List (String × String) × String)
    (content t pat : String) (hpat : dictGet patterns t = some pat) :
    simple_redact_content matcher content [t]
      = reSub (matcher pat content).1 (matcher pat content).2 maskToken ∧
    (∀ parts pb : List (String × String), ∀ tail : String,
      parts.map Prod.fst = pb.map Prod.fst →
      reSub parts tail maskToken = reSub pb tail maskToken) ∧
    (∀ parts : List (String × String), ∀ tail : String,
      (reSub parts tail maskToken).length =
        (parts.map (fun pr => pr.1.length)).sum + 10 * parts.length + tail.length) ∧
    maskToken.length = 10 := by
  refine ⟨?_, ?_, ?_, rfl⟩
  · simp [simple_redact_content, hpat]
  · intro parts pb tail h
    exact reSub_matches_irrelevant maskToken tail parts pb h
  · intro parts tail
    have hlen := reSub_length parts tail maskToken
    have hm : maskToken.length = 10 := rfl
    rw [hm] at hlen
    exact hlen

/-- C8 witness: a concrete fallback run for US_SSN rewrites through re.sub
with the mask token. -/
theorem C8_witness :
    simple_redact_content sampleMatcher "body" ["US_SSN"]
      = reSub (sampleMatcher "\\b\\d\x7b3\x7d-\\d\x7b2\x7d-\\d\x7b4\x7d\\b" "body").1
          (sampleMatcher "\\b\\d\x7b3\x7d-\\d\x7b2\x7d-\\d\x7b4\x7d\\b" "body").2
          maskToken :=
  (C8_fixed_width_mask sampleMatcher "body" "US_SSN"
    "\\b\\d\x7b3\x7d-\\d\x7b2\x7d-\\d\x7b4\x7d\\b" (by decide)).1

end PrivacyGuardian
